import Mathlib

/-!
Verification development for the resume-parsing pipeline in
`pdf_extractor.py`.

The pipeline calls three external services: a document-transcription
service (zerox on a file path), a language model (detector prompt and
per-segment extraction prompt), and zerox again in text-splitting mode.
Each external call may raise an exception; a model response is a text
whose only use in the code is the outcome of running the JSON parser on
it.  The embedding therefore passes the environment in explicitly:

  * an external call that may raise is an `Except String` value, the
    `error` constructor standing for a raised exception;
  * a model response is represented by the outcome of parsing its
    content: `none` when the content is not parseable as JSON, `some j`
    when it parses to the JSON value `j`;
  * the splitting call result is represented by whether the returned
    Python value is a `list` of strings or some non-list value, which is
    exactly the distinction the code tests with `isinstance(_, list)`.

Python dictionaries coming from the JSON parser are association lists
with unique keys; JSON values are the inductive `Json` below, with JSON
numbers restricted to integers (the values the code ever produces or
inspects).  File-system effects of the CSV aggregator are modelled by
explicit state passing: the destination file is `none` when absent and
`some rows` when present with the given rows.
-/

/-- A JSON value as produced by the JSON parser (numbers restricted to
integers). An object is an association list of key/value pairs; parsed
JSON objects have unique keys. -/
inductive Json where
  | null : Json
  | bool : Bool → Json
  | num : Int → Json
  | str : String → Json
  | arr : List Json → Json
  | obj : List (String × Json) → Json

/-- Python truthiness of a JSON-derived value, as used by an `if` test:
`None` and `False` are falsy, numbers are truthy iff nonzero, strings
and containers are truthy iff nonempty. -/
def truthy : Json → Bool
  | Json.null => false
  | Json.bool b => b
  | Json.num n => decide (n ≠ 0)
  | Json.str s => decide (s ≠ "")
  | Json.arr xs => !xs.isEmpty
  | Json.obj fs => !fs.isEmpty

/-- Whether a JSON-derived value is a Python `dict`. -/
def isObj : Json → Bool
  | Json.obj _ => true
  | _ => false

/-- Whether a JSON-derived value is Python `None`. -/
def isNull : Json → Bool
  | Json.null => true
  | _ => false

/-- The apostrophe character used by the Python repr of strings. -/
def pyQuote : String := String.singleton (Char.ofNat 39)

mutual

/-- Python `repr` of a JSON-derived value (string escaping inside
reprs is not modelled beyond quoting). -/
def pyRepr : Json → String
  | Json.null => "None"
  | Json.bool true => "True"
  | Json.bool false => "False"
  | Json.num n => toString n
  | Json.str s => pyQuote ++ s ++ pyQuote
  | Json.arr xs => "[" ++ pyReprList xs ++ "]"
  | Json.obj fs => "\x7b" ++ pyReprFields fs ++ "\x7d"

/-- Comma-separated reprs of the elements of a Python list. -/
def pyReprList : List Json → String
  | [] => ""
  | [x] => pyRepr x
  | x :: y :: rest => pyRepr x ++ ", " ++ pyReprList (y :: rest)

/-- Comma-separated reprs of the entries of a Python dict. -/
def pyReprFields : List (String × Json) → String
  | [] => ""
  | [(k, v)] => pyQuote ++ k ++ pyQuote ++ ": " ++ pyRepr v
  | (k, v) :: e :: rest =>
      pyQuote ++ k ++ pyQuote ++ ": " ++ pyRepr v ++ ", " ++ pyReprFields (e :: rest)

end

/-- Python `str` of a JSON-derived value: the string itself for a
string, the repr otherwise. -/
def pyStr : Json → String
  | Json.str s => s
  | j => pyRepr j

/-- Python iteration over a JSON-derived value (`for x in v`): a list
yields its elements, a string its characters (each a string), a dict its
keys; `None`, booleans and numbers are not iterable and raise. -/
def pyIter : Json → Except String (List Json)
  | Json.arr xs => Except.ok xs
  | Json.str s => Except.ok (s.data.map (fun c => Json.str (String.singleton c)))
  | Json.obj fs => Except.ok (fs.map (fun p => Json.str p.1))
  | _ => Except.error "TypeError: object is not iterable"

/-- Python dict item assignment `d[k] = v` on an association list with
unique keys: replace the value at the first occurrence of the key, or
append the new entry at the end. -/
def dictSet : List (String × Json) → String → Json → List (String × Json)
  | [], k, v => [(k, v)]
  | (a, b) :: rest, k, v =>
      if a = k then (a, v) :: rest else (a, b) :: dictSet rest k v

/-- The result of the zerox text-splitting call, classified the way the
code classifies it: a Python `list` of segment strings, or any non-list
value (the code only tests `isinstance(split_result, list)`). -/
inductive ZeroxSplit where
  | pylist : List String → ZeroxSplit
  | nonList : ZeroxSplit

/-- `check_multiple_resumes` (pdf_extractor.py lines 71-78): the
`llm.invoke` call sits outside the `try`, so a raised exception
propagates to the caller; `json.loads(response.content)` is inside a
`try` whose `JSONDecodeError` handler returns the default
`\x7b"multiple_resumes": False, "resume_count": 1\x7d`.  The argument is
the detector response: `error` when `llm.invoke` raised, `ok none` when
the response content is not parseable as JSON, `ok (some j)` when it
parses to `j`. -/
def check_multiple_resumes (resp : Except String (Option Json)) : Except String Json :=
  match resp with
  | Except.error e => Except.error e
  | Except.ok none =>
      Except.ok (Json.obj [("multiple_resumes", Json.bool false), ("resume_count", Json.num 1)])
  | Except.ok (some j) => Except.ok j

/-- `split_resumes` (lines 80-93): the whole body is a `try` returning
`split_result if isinstance(split_result, list) else [text]`, with the
`except` handler returning `[text]`.  The second argument is the zerox
call outcome. -/
def split_resumes (text : String) (resp : Except String ZeroxSplit) : List String :=
  match resp with
  | Except.error _ => [text]
  | Except.ok (ZeroxSplit.pylist xs) => xs
  | Except.ok ZeroxSplit.nonList => [text]

/-- `process_single_resume` (lines 95-109): the outer `try` catches any
exception from building the prompt or invoking the model and returns
`\x7b\x7d`; the inner `try` catches a JSON parse failure of the response
content and also returns `\x7b\x7d`; otherwise the parsed JSON value is
returned.  The argument is the extraction response for this segment. -/
def process_single_resume (resp : Except String (Option Json)) : Json :=
  match resp with
  | Except.error _ => Json.obj []
  | Except.ok none => Json.obj []
  | Except.ok (some j) => j

/-- `result["resume_index"] = idx` (line 135): item assignment succeeds
on a dict and raises `TypeError` on any other JSON-derived value (list,
string, number, boolean, `None`). -/
def setIndex (result : Json) (idx : Int) : Except String Json :=
  match result with
  | Json.obj fields => Except.ok (Json.obj (dictSet fields "resume_index" (Json.num idx)))
  | _ => Except.error "TypeError: item assignment on non-dict"

/-- The per-file environment: outcomes of the external calls made while
processing one file.  `transcribe` is the zerox PDF transcription (line
115); `detectResp` the detector model response (line 74); `splitResp`
the zerox splitting call (line 84); `extractResp k` the extraction model
response for the segment with 1-based index `k` (line 99). -/
structure FileEnv where
  transcribe : Except String String
  detectResp : Except String (Option Json)
  splitResp : Except String ZeroxSplit
  extractResp : Nat → Except String (Option Json)

/-- Lines 125-129 of `process_pdf_file`: `check_result.get` raises
`AttributeError` when the detection result is not a dict; otherwise the
document is split iff `check_result.get("multiple_resumes", False)` is
truthy, and kept whole (one segment equal to the extracted text)
otherwise. -/
def chooseSegments (extracted_text : String) (check_result : Json)
    (splitResp : Except String ZeroxSplit) : Except String (List String) :=
  match check_result with
  | Json.obj fields =>
      Except.ok
        (if truthy ((fields.lookup "multiple_resumes").getD (Json.bool false)) then
          split_resumes extracted_text splitResp
        else [extracted_text])
  | _ => Except.error "AttributeError: get on non-dict"

/-- The extraction loop of `process_pdf_file` (lines 132-136):
`for idx, resume_text in enumerate(resume_texts, 1)` processes each
segment, assigns `result["resume_index"] = idx`, and appends.  `i` is
the 1-based index of the first remaining segment; an exception from the
item assignment aborts the loop. -/
def extractLoop (resp : Nat → Except String (Option Json)) :
    List String → Nat → Except String (List Json)
  | [], _ => Except.ok []
  | _ :: rest, i =>
      match setIndex (process_single_resume (resp i)) (Int.ofNat i) with
      | Except.error e => Except.error e
      | Except.ok r =>
          match extractLoop resp rest (i + 1) with
          | Except.error e => Except.error e
          | Except.ok rs => Except.ok (r :: rs)

/-- The body of the `try` of `process_pdf_file` (lines 113-138):
transcribe, detect, choose segments, then run the extraction loop from
index 1. -/
def processFileBody (env : FileEnv) : Except String (List Json) :=
  match env.transcribe with
  | Except.error e => Except.error e
  | Except.ok extracted_text =>
      match check_multiple_resumes env.detectResp with
      | Except.error e => Except.error e
      | Except.ok check_result =>
          match chooseSegments extracted_text check_result env.splitResp with
          | Except.error e => Except.error e
          | Except.ok resume_texts => extractLoop env.extractResp resume_texts 1

/-- `process_pdf_file` (lines 111-142): any exception raised inside the
body is caught at the file boundary and the file degrades to `[\x7b\x7d]`. -/
def process_pdf_file (env : FileEnv) : List Json :=
  match processFileBody env with
  | Except.ok results => results
  | Except.error _ => [Json.obj []]

/-- `process_multiple_files` (lines 144-157): process the listed PDF
files in order, building the results mapping from file path to that
record list of each file (directory creation and the progress bar are
side effects with no bearing on the result).  `envs` gives the
external-call outcomes of each file. -/
def process_multiple_files (pdf_files : List String) (envs : String → FileEnv) :
    List (String × List Json) :=
  pdf_files.map (fun pdf_file => (pdf_file, process_pdf_file (envs pdf_file)))

/-- The fixed CSV header row written by `json_to_csv` (line 174). -/
def header : List String := ["Name", "Email", "Mobile", "Experience", "Skills"]

/-- `str(experience).replace(chr(10), chr(32))` with a one-character
pattern: replace every newline character by a space. -/
def replaceNewlines (s : String) : String :=
  String.mk (s.data.map (fun c => if c = Char.ofNat 10 then Char.ofNat 32 else c))

/-- `str(resume.get(key, "") or "")` (lines 193-195): a missing key
defaults to the empty string; a falsy value (`None`, `False`, `0`, empty
string or container) is replaced by the empty string by `or`; a truthy
value is stringified. -/
def orEmptyStr (v : Option Json) : String :=
  match v with
  | none => ""
  | some j => if truthy j then pyStr j else ""

/-- Row construction for one element of the parsed candidate array
(lines 177-198 of `json_to_csv`).  `resume.get` raises `AttributeError`
on a non-dict element.  `skills` defaults to the empty list and `None`
is replaced by the empty list; iterating a non-iterable skills value
raises; `None` elements are dropped and the rest stringified and joined
with a semicolon.  `experience` defaults to the empty string, `None`
becomes the empty string, anything else is stringified with newlines
replaced by spaces.  The row is name, email, mobile, experience,
skills. -/
def mkRow (resume : Json) : Except String (List String) :=
  match resume with
  | Json.obj fields =>
      let skills0 := (fields.lookup "skills").getD (Json.arr [])
      let skills := if isNull skills0 then Json.arr [] else skills0
      match pyIter skills with
      | Except.error e => Except.error e
      | Except.ok elems =>
          let skills_str :=
            String.intercalate ";" ((elems.filter (fun e => !isNull e)).map pyStr)
          let exp0 := (fields.lookup "experience").getD (Json.str "")
          let experience := if isNull exp0 then "" else replaceNewlines (pyStr exp0)
          Except.ok
            [orEmptyStr (fields.lookup "name"),
             orEmptyStr (fields.lookup "email"),
             orEmptyStr (fields.lookup "mobile"),
             experience,
             skills_str]
  | _ => Except.error "AttributeError: get on non-dict"

/-- The skills cell of a row-construction outcome: the fifth entry of
the row (name, email, mobile, experience, skills), when the row was
constructed. -/
def skillsCell (r : Except String (List String)) : Option String :=
  match r with
  | Except.ok row => row.get? 4
  | Except.error _ => none

/-- The row-writing loop of `json_to_csv` (lines 177-198): rows are
appended to the open file one at a time; the first row-construction
failure raises out of the loop, leaving the rows already written in the
file (the `except` handler only logs). `acc` is the file content so
far; the result is the file content when the call ends. -/
def writeRows : List Json → List (List String) → List (List String)
  | [], acc => acc
  | r :: rest, acc =>
      match mkRow r with
      | Except.error _ => acc
      | Except.ok row => writeRows rest (acc ++ [row])

/-- Error-propagating row construction over a list of candidate
elements: the rows `mkRow` yields when every element succeeds, or the
first failure. Used to state when a batch aggregates cleanly. -/
def mapRows : List Json → Except String (List (List String))
  | [] => Except.ok []
  | x :: xs =>
      match mkRow x with
      | Except.error e => Except.error e
      | Except.ok r =>
          match mapRows xs with
          | Except.error e => Except.error e
          | Except.ok rs => Except.ok (r :: rs)

/-- `json_to_csv` (lines 159-207) acting on the destination file state
(`none` = absent, `some rows` = present with those rows).  The first
argument is the outcome of `json.loads(json_content)` (line 163), which
runs before the file is opened: on parse failure the handler only logs,
so the file is untouched.  Otherwise the file is opened in append mode
(creating it when absent), the header row is written iff the file did
not exist, and the parsed value is iterated; a non-iterable value or a
row-construction failure raises into the generic handler, which only
logs, so the rows written before the failure remain. -/
def json_to_csv (parsed : Option Json) (file : Option (List (List String))) :
    Option (List (List String)) :=
  match parsed with
  | none => file
  | some parsed_json =>
      let existing := file.getD []
      let afterHeader := if file.isSome then existing else existing ++ [header]
      match pyIter parsed_json with
      | Except.error _ => some afterHeader
      | Except.ok resumes => some (writeRows resumes afterHeader)

/-- A per-file environment in which every call succeeds and every model
response is unparseable, so the pipeline runs the whole-document default
path. -/
def envHappy : FileEnv where
  transcribe := Except.ok "resume text"
  detectResp := Except.ok none
  splitResp := Except.ok ZeroxSplit.nonList
  extractResp := fun _ => Except.ok none

/-- A per-file environment in which the transcription call raises. -/
def envTranscribeFail : FileEnv where
  transcribe := Except.error "transcription failed"
  detectResp := Except.ok none
  splitResp := Except.ok ZeroxSplit.nonList
  extractResp := fun _ => Except.ok none

/-- A two-file batch in which transcription raises for `a.pdf` and
everything succeeds for any other file. -/
def demoEnvs : String → FileEnv :=
  fun f => if f = "a.pdf" then envTranscribeFail else envHappy

/-- A per-file environment in which the document transcribes, detection
parses to the single-resume answer, and the extraction response for
every segment parses to the JSON array `[]`: valid JSON that is not a
dict, so the `resume_index` item assignment raises. -/
def envIndexCrash : FileEnv where
  transcribe := Except.ok "doc"
  detectResp :=
    Except.ok
      (some (Json.obj [("multiple_resumes", Json.bool false), ("resume_count", Json.num 1)]))
  splitResp := Except.ok ZeroxSplit.nonList
  extractResp := fun _ => Except.ok (some (Json.arr []))

theorem dictSet_lookup (fs : List (String × Json)) (k : String) (v : Json) :
    (dictSet fs k v).lookup k = some v := by
  induction fs with
  | nil => simp [dictSet, List.lookup]
  | cons p rest ih =>
      obtain ⟨a, b⟩ := p
      by_cases h : a = k
      · subst h
        simp [dictSet, List.lookup]
      · have hba : (k == a) = false := by
          simpa using Ne.symm h
        simp [dictSet, h, List.lookup, hba, ih]

theorem extractLoop_spec (resp : Nat → Except String (Option Json)) :
    ∀ (segs : List String) (i : Nat),
      (∀ k, i ≤ k → k < i + segs.length → isObj (process_single_resume (resp k)) = true) →
      ∃ rs, extractLoop resp segs i = Except.ok rs ∧ rs.length = segs.length ∧
        ∀ j, j < segs.length →
          ∃ fs, process_single_resume (resp (i + j)) = Json.obj fs ∧
            rs.get? j =
              some (Json.obj (dictSet fs "resume_index" (Json.num (Int.ofNat (i + j))))) := by
  intro segs
  induction segs with
  | nil =>
      intro i h
      exact ⟨[], rfl, rfl, fun j hj => absurd hj (by simp)⟩
  | cons s rest ih =>
      intro i h
      have hobj : isObj (process_single_resume (resp i)) = true :=
        h i (le_refl i) (by simp)
      cases hps : process_single_resume (resp i) with
      | obj fs =>
          obtain ⟨rs, hrs, hlen, hidx⟩ := ih (i + 1) (by
            intro k hk1 hk2
            exact h k (by omega) (by simpa [Nat.add_comm, Nat.add_left_comm] using by omega))
          refine ⟨Json.obj (dictSet fs "resume_index" (Json.num (Int.ofNat i))) :: rs, ?_, ?_, ?_⟩
          · simp [extractLoop, hps, setIndex, hrs]
          · simp [hlen]
          · intro j hj
            cases j with
            | zero => exact ⟨fs, by simpa using hps, by simp⟩
            | succ j2 =>
                have hj2 : j2 < rest.length := by simpa using hj
                obtain ⟨fs2, hps2, hget2⟩ := hidx j2 hj2
                have harith : i + 1 + j2 = i + (j2 + 1) := by omega
                rw [harith] at hps2 hget2
                exact ⟨fs2, hps2, by simpa using hget2⟩
      | null => rw [hps] at hobj; simp [isObj] at hobj
      | bool b => rw [hps] at hobj; simp [isObj] at hobj
      | num n => rw [hps] at hobj; simp [isObj] at hobj
      | str t => rw [hps] at hobj; simp [isObj] at hobj
      | arr xs => rw [hps] at hobj; simp [isObj] at hobj

theorem writeRows_ok (xs : List Json) :
    ∀ (rx : List (List String)), mapRows xs = Except.ok rx →
      ∀ (ys : List Json) (acc : List (List String)),
        writeRows (xs ++ ys) acc = writeRows ys (acc ++ rx) := by
  induction xs with
  | nil =>
      intro rx h ys acc
      have : rx = [] := by
        simpa [mapRows] using h.symm
      subst this
      simp [writeRows]
  | cons x xs2 ih =>
      intro rx h ys acc
      cases hx : mkRow x with
      | error e => simp [mapRows, hx] at h
      | ok r =>
          cases hxs : mapRows xs2 with
          | error e => simp [mapRows, hx, hxs] at h
          | ok rs =>
              have hrx : rx = r :: rs := by
                simp [mapRows, hx, hxs] at h
                exact h.symm
              subst hrx
              have := ih rs hxs ys (acc ++ [r])
              simp [writeRows, hx, this, List.append_assoc]

theorem writeRows_all (xs : List Json) (rx : List (List String))
    (h : mapRows xs = Except.ok rx) (acc : List (List String)) :
    writeRows xs acc = acc ++ rx := by
  have := writeRows_ok xs rx h [] acc
  simpa [writeRows] using this

theorem writeRows_stops (bad : Json) (e : String) (hbad : mkRow bad = Except.error e)
    (rest : List Json) (acc : List (List String)) : writeRows (bad :: rest) acc = acc := by
  simp [writeRows, hbad]

/-- Claim C1: for every input file in a batch, if any pipeline stage for
that file raises an exception, the exception is caught at the file
boundary and the entry of that file in the results mapping becomes the
single-element list containing an empty mapping, while every file
(including the remaining ones) is still processed, so the results
mapping covers every input file in order. -/
theorem c1_file_isolation (files : List String) (envs : String → FileEnv) :
    (process_multiple_files files envs).map Prod.fst = files ∧
    (∀ f, f ∈ files → (f, process_pdf_file (envs f)) ∈ process_multiple_files files envs) ∧
    (∀ f e, processFileBody (envs f) = Except.error e →
      process_pdf_file (envs f) = [Json.obj []]) := by
  refine ⟨?_, ?_, ?_⟩
  · have hcomp : (Prod.fst ∘ fun pdf_file => (pdf_file, process_pdf_file (envs pdf_file))) =
        fun pdf_file => pdf_file := by
      funext x
      rfl
    simp [process_multiple_files, hcomp]
  · intro f hf
    exact List.mem_map_of_mem _ hf
  · intro f e he
    simp [process_pdf_file, he]

/-- Witness for C1: in a two-file batch where transcription raises for
`a.pdf` and succeeds for `b.pdf`, the results mapping still covers both
files in order, the entry for `a.pdf` is `[` the empty mapping `]`, and
`b.pdf` is processed. -/
theorem c1_file_isolation_witness :
    (process_multiple_files ["a.pdf", "b.pdf"] demoEnvs).map Prod.fst = ["a.pdf", "b.pdf"] ∧
    ("a.pdf", [Json.obj []]) ∈ process_multiple_files ["a.pdf", "b.pdf"] demoEnvs ∧
    ("b.pdf", process_pdf_file (demoEnvs "b.pdf")) ∈
      process_multiple_files ["a.pdf", "b.pdf"] demoEnvs := by
  have h := c1_file_isolation ["a.pdf", "b.pdf"] demoEnvs
  refine ⟨h.1, ?_, h.2.1 "b.pdf" (by simp)⟩
  have he : processFileBody (demoEnvs "a.pdf") = Except.error "transcription failed" := rfl
  have hpa := h.2.2 "a.pdf" "transcription failed" he
  have ha := h.2.1 "a.pdf" (by simp)
  rw [hpa] at ha
  exact ha

/-- Claim C2: a detector model response that is not parseable as JSON
yields exactly the default detection result, and the parse failure is
not propagated to the caller as an exception. -/
theorem c2_detector_default :
    check_multiple_resumes (Except.ok none) =
      Except.ok
        (Json.obj [("multiple_resumes", Json.bool false), ("resume_count", Json.num 1)]) ∧
    ∀ e, check_multiple_resumes (Except.ok none) ≠ Except.error e := by
  constructor
  · rfl
  · intro e h
    exact Except.noConfusion h

/-- Claim C4: if the splitting call raises an exception or returns a
non-list (in particular any non-sequence) result, `split_resumes`
returns the whole input text as a single-element list; being a total
function of the call outcome, it never lets an exception escape the
splitting boundary. -/
theorem c4_split_fallback (text : String) (z : Except String ZeroxSplit) :
    (∀ e, z = Except.error e → split_resumes text z = [text]) ∧
    (z = Except.ok ZeroxSplit.nonList → split_resumes text z = [text]) := by
  constructor
  · intro e he
    rw [he]
    rfl
  · intro hz
    rw [hz]
    rfl

/-- Witness for C4: a raised splitting call and a non-list splitting
result both degrade to the whole document as the only segment. -/
theorem c4_split_fallback_witness :
    split_resumes "doc" (Except.error "boom") = ["doc"] ∧
    split_resumes "doc" (Except.ok ZeroxSplit.nonList) = ["doc"] :=
  ⟨(c4_split_fallback "doc" (Except.error "boom")).1 "boom" rfl,
   (c4_split_fallback "doc" (Except.ok ZeroxSplit.nonList)).2 rfl⟩

/-- Claim C5: when the detection result is a mapping whose
`multiple_resumes` value is `false`, the pipeline selects exactly one
segment equal to the full extracted text, and the selection does not
depend on the splitting call (the splitter is not invoked). -/
theorem c5_single_segment (text : String) (dfields : List (String × Json))
    (z z2 : Except String ZeroxSplit)
    (h : dfields.lookup "multiple_resumes" = some (Json.bool false)) :
    chooseSegments text (Json.obj dfields) z = Except.ok [text] ∧
    chooseSegments text (Json.obj dfields) z = chooseSegments text (Json.obj dfields) z2 := by
  have ht : truthy ((dfields.lookup "multiple_resumes").getD (Json.bool false)) = false := by
    rw [h]
    rfl
  constructor
  · simp [chooseSegments, ht]
  · simp [chooseSegments, ht]

/-- Witness for C5: a concrete single-resume detection result keeps the
whole document as the only segment whatever the splitting call would
have produced. -/
theorem c5_single_segment_witness :
    chooseSegments "full text"
        (Json.obj [("multiple_resumes", Json.bool false), ("resume_count", Json.num 1)])
        (Except.ok (ZeroxSplit.pylist ["x", "y"])) = Except.ok ["full text"] ∧
    chooseSegments "full text"
        (Json.obj [("multiple_resumes", Json.bool false), ("resume_count", Json.num 1)])
        (Except.ok (ZeroxSplit.pylist ["x", "y"])) =
      chooseSegments "full text"
        (Json.obj [("multiple_resumes", Json.bool false), ("resume_count", Json.num 1)])
        (Except.error "boom") :=
  c5_single_segment "full text"
    [("multiple_resumes", Json.bool false), ("resume_count", Json.num 1)]
    (Except.ok (ZeroxSplit.pylist ["x", "y"])) (Except.error "boom") rfl

/-- Counterexample to claim C3 as stated: in `envIndexCrash` the
segment list for the file has exactly one element (the whole document),
and the extraction response for that segment is valid JSON (the array
`[]`), yet the produced record list is `[` the empty mapping `]` whose
first record carries no `resume_index` at all — because the
`resume_index` item assignment on the non-dict parse result raises and
the file boundary handler replaces the whole file result.  So it is not
true that the k-th record carries `resume_index` k regardless of how
the extraction of each segment turns out. -/
theorem c3_counterexample :
    chooseSegments "doc"
        (Json.obj [("multiple_resumes", Json.bool false), ("resume_count", Json.num 1)])
        envIndexCrash.splitResp = Except.ok ["doc"] ∧
    process_pdf_file envIndexCrash = [Json.obj []] ∧
    ¬ ∃ fs, (process_pdf_file envIndexCrash).get? 0 = some (Json.obj fs) ∧
        fs.lookup "resume_index" = some (Json.num 1) := by
  refine ⟨rfl, rfl, ?_⟩
  rintro ⟨fs, hget, hlk⟩
  have hpf : process_pdf_file envIndexCrash = [Json.obj []] := rfl
  rw [hpf] at hget
  simp at hget
  subst hget
  simp [List.lookup] at hlk

/-- Claim C3 as amended: for a file whose segment list has n elements,
provided the extraction response of every segment is either an exception,
not valid JSON, or valid JSON that is a mapping (so that the
`resume_index` item assignment cannot raise), the k-th produced record
carries `resume_index` k, for k = 1..n in that exact order, and a
segment whose response is not valid JSON yields exactly the empty
mapping plus its `resume_index`.  (Unamended, the claim fails when a
response parses to valid non-mapping JSON: see the counterexample.) -/
theorem c3_resume_index_order (env : FileEnv) (text : String) (cr : Json)
    (segs : List String) (n : Nat)
    (h1 : env.transcribe = Except.ok text)
    (h2 : check_multiple_resumes env.detectResp = Except.ok cr)
    (h3 : chooseSegments text cr env.splitResp = Except.ok segs)
    (h4 : segs.length = n)
    (h5 : ∀ k, 1 ≤ k → k ≤ n → isObj (process_single_resume (env.extractResp k)) = true) :
    (process_pdf_file env).length = n ∧
    (∀ k, 1 ≤ k → k ≤ n →
      ∃ fs, (process_pdf_file env).get? (k - 1) = some (Json.obj fs) ∧
        fs.lookup "resume_index" = some (Json.num (Int.ofNat k))) ∧
    (∀ k, 1 ≤ k → k ≤ n → env.extractResp k = Except.ok none →
      (process_pdf_file env).get? (k - 1) =
        some (Json.obj [("resume_index", Json.num (Int.ofNat k))])) := by
  obtain ⟨rs, hrs, hlen, hidx⟩ := extractLoop_spec env.extractResp segs 1 (by
    intro k hk1 hk2
    exact h5 k hk1 (by omega))
  have hpf : process_pdf_file env = rs := by
    simp [process_pdf_file, processFileBody, h1, h2, h3, hrs]
  refine ⟨by rw [hpf, hlen, h4], ?_, ?_⟩
  · intro k hk1 hk2
    have hjk : k - 1 < segs.length := by omega
    obtain ⟨fs, hps, hget⟩ := hidx (k - 1) hjk
    have harith : 1 + (k - 1) = k := by omega
    rw [harith] at hps hget
    exact ⟨dictSet fs "resume_index" (Json.num (Int.ofNat k)), by rw [hpf]; exact hget,
      dictSet_lookup fs "resume_index" (Json.num (Int.ofNat k))⟩
  · intro k hk1 hk2 hresp
    have hjk : k - 1 < segs.length := by omega
    obtain ⟨fs, hps, hget⟩ := hidx (k - 1) hjk
    have harith : 1 + (k - 1) = k := by omega
    rw [harith] at hps hget
    rw [hresp] at hps
    have hfs : fs = [] := by
      have : Json.obj [] = Json.obj fs := hps
      cases this
      rfl
    subst hfs
    rw [hpf]
    exact hget

/-- Witness for the amended C3: one segment whose extraction response is
not valid JSON produces exactly one record, the empty mapping plus
`resume_index` 1. -/
theorem c3_resume_index_order_witness :
    (process_pdf_file envHappy).length = 1 ∧
    (process_pdf_file envHappy).get? 0 =
      some (Json.obj [("resume_index", Json.num (Int.ofNat 1))]) := by
  have h := c3_resume_index_order envHappy "resume text"
    (Json.obj [("multiple_resumes", Json.bool false), ("resume_count", Json.num 1)])
    ["resume text"] 1 rfl rfl rfl rfl (fun k _ _ => rfl)
  exact ⟨h.1, h.2.2 1 (le_refl 1) (le_refl 1) rfl⟩

/-- Counterexample to claim C6 as stated: detection succeeds and
reports `multiple_resumes` true with `resume_count` 3, but the splitting
call returns a list of 2 segments and the pipeline produces those 2
segments — `resume_count` is never consulted, so the segment count does
not equal the detected count. -/
theorem c6_counterexample :
    chooseSegments "doc"
        (Json.obj [("multiple_resumes", Json.bool true), ("resume_count", Json.num 3)])
        (Except.ok (ZeroxSplit.pylist ["r1", "r2"])) = Except.ok ["r1", "r2"] ∧
    [("multiple_resumes", Json.bool true), ("resume_count", Json.num 3)].lookup "resume_count"
      = some (Json.num 3) ∧
    ["r1", "r2"].length ≠ 3 := by
  refine ⟨rfl, rfl, by decide⟩

/-- Claim C6 as amended: the number of segments produced equals the
length of the list returned by the splitting call when the detection
result has `multiple_resumes` true and the call returns a list; it is
exactly 1 when the splitting call raises or returns a non-list, and
exactly 1 when `multiple_resumes` is false or absent (whole-document
fallback).  The detected `resume_count` plays no role. -/
theorem c6_segment_count (text : String) (dfields : List (String × Json))
    (xs : List String) (e : String) (z : Except String ZeroxSplit) :
    (dfields.lookup "multiple_resumes" = some (Json.bool true) →
      chooseSegments text (Json.obj dfields) (Except.ok (ZeroxSplit.pylist xs)) =
        Except.ok xs ∧
      chooseSegments text (Json.obj dfields) (Except.error e) = Except.ok [text] ∧
      chooseSegments text (Json.obj dfields) (Except.ok ZeroxSplit.nonList) =
        Except.ok [text]) ∧
    (dfields.lookup "multiple_resumes" = some (Json.bool false) →
      chooseSegments text (Json.obj dfields) z = Except.ok [text]) ∧
    (dfields.lookup "multiple_resumes" = none →
      chooseSegments text (Json.obj dfields) z = Except.ok [text]) := by
  refine ⟨?_, ?_, ?_⟩
  · intro h
    have ht : truthy ((dfields.lookup "multiple_resumes").getD (Json.bool false)) = true := by
      rw [h]
      rfl
    refine ⟨?_, ?_, ?_⟩ <;> simp [chooseSegments, ht, split_resumes]
  · intro h
    have ht : truthy ((dfields.lookup "multiple_resumes").getD (Json.bool false)) = false := by
      rw [h]
      rfl
    simp [chooseSegments, ht]
  · intro h
    have ht : truthy ((dfields.lookup "multiple_resumes").getD (Json.bool false)) = false := by
      rw [h]
      rfl
    simp [chooseSegments, ht]

/-- Witness for the amended C6: with `multiple_resumes` true and
`resume_count` 3, a 2-element splitting result gives exactly those 2
segments, and a raised splitting call gives exactly 1 segment. -/
theorem c6_segment_count_witness :
    chooseSegments "doc"
        (Json.obj [("multiple_resumes", Json.bool true), ("resume_count", Json.num 3)])
        (Except.ok (ZeroxSplit.pylist ["seg1", "seg2"])) = Except.ok ["seg1", "seg2"] ∧
    chooseSegments "doc"
        (Json.obj [("multiple_resumes", Json.bool true), ("resume_count", Json.num 3)])
        (Except.error "boom") = Except.ok ["doc"] := by
  have h := (c6_segment_count "doc"
    [("multiple_resumes", Json.bool true), ("resume_count", Json.num 3)]
    ["seg1", "seg2"] "boom" (Except.error "boom")).1 rfl
  exact ⟨h.1, h.2.1⟩

/-- Claim C7: the header row is written only when the destination file
does not yet exist at the start of an aggregation call.  Two
consecutive aggregation calls against a fresh (absent) destination, each
with a cleanly-parsing batch whose rows all construct, produce exactly
one header row followed by the two batches of data rows in call order;
and a call against an existing file appends its rows without writing a
header. -/
theorem c7_header_once (xs ys : List Json) (rx ry : List (List String))
    (hx : mapRows xs = Except.ok rx) (hy : mapRows ys = Except.ok ry) :
    json_to_csv (some (Json.arr xs)) none = some ([header] ++ rx) ∧
    json_to_csv (some (Json.arr ys)) (json_to_csv (some (Json.arr xs)) none) =
      some ([header] ++ rx ++ ry) ∧
    (∀ rows, json_to_csv (some (Json.arr ys)) (some rows) = some (rows ++ ry)) := by
  have h1 : json_to_csv (some (Json.arr xs)) none = some ([header] ++ rx) := by
    simp [json_to_csv, pyIter, writeRows_all xs rx hx]
  have h3 : ∀ rows, json_to_csv (some (Json.arr ys)) (some rows) = some (rows ++ ry) := by
    intro rows
    simp [json_to_csv, pyIter, writeRows_all ys ry hy]
  refine ⟨h1, ?_, h3⟩
  rw [h1, h3 ([header] ++ rx)]

/-- Witness for C7: aggregating a one-candidate batch and then a second
one-candidate batch against a fresh destination yields one header row
and the two data rows in call order. -/
theorem c7_header_once_witness :
    json_to_csv (some (Json.arr [Json.obj [("name", Json.str "Alice")]])) none =
      some [header, ["Alice", "", "", "", ""]] ∧
    json_to_csv (some (Json.arr [Json.obj [("name", Json.str "Bob")]]))
        (json_to_csv (some (Json.arr [Json.obj [("name", Json.str "Alice")]])) none) =
      some [header, ["Alice", "", "", "", ""], ["Bob", "", "", "", ""]] := by
  have h := c7_header_once [Json.obj [("name", Json.str "Alice")]]
    [Json.obj [("name", Json.str "Bob")]]
    [["Alice", "", "", "", ""]] [["Bob", "", "", "", ""]] rfl rfl
  exact ⟨h.1, h.2.1⟩

/-- Claim C8: in row construction for one candidate object, a null or
absent skills field yields the empty skills string; for a skills list,
null elements are dropped and the remaining elements are stringified and
joined with a semicolon.  The skills cell is the fifth entry of the
row. -/
theorem c8_skills_normalization (fields : List (String × Json)) :
    ((fields.lookup "skills" = none ∨ fields.lookup "skills" = some Json.null) →
      skillsCell (mkRow (Json.obj fields)) = some "") ∧
    (∀ l, fields.lookup "skills" = some (Json.arr l) →
      skillsCell (mkRow (Json.obj fields)) =
        some (String.intercalate ";" ((l.filter (fun e => !isNull e)).map pyStr))) := by
  constructor
  · intro h
    cases h with
    | inl h => simp [skillsCell, mkRow, h, isNull, pyIter, String.intercalate]
    | inr h => simp [skillsCell, mkRow, h, isNull, pyIter, String.intercalate]
  · intro l h
    simp [skillsCell, mkRow, h, isNull, pyIter]

/-- Witness for C8: a candidate with no skills field aggregates to the
empty skills string, and skills `["Python", null, "Go"]` aggregate to
the cell `"Python;Go"`. -/
theorem c8_skills_normalization_witness :
    skillsCell (mkRow (Json.obj [])) = some "" ∧
    skillsCell (mkRow (Json.obj
      [("skills", Json.arr [Json.str "Python", Json.null, Json.str "Go"])])) =
      some "Python;Go" := by
  have h1 := (c8_skills_normalization []).1 (Or.inl rfl)
  have h2 := (c8_skills_normalization
    [("skills", Json.arr [Json.str "Python", Json.null, Json.str "Go"])]).2
    [Json.str "Python", Json.null, Json.str "Go"] rfl
  refine ⟨h1, ?_⟩
  rw [h2]
  rfl

/-- Claim C9: a JSON parse failure leaves the destination file entirely
unmodified (the parse runs before the file is opened), and a
row-construction failure mid-batch aborts only that aggregation call:
every row written by previous calls is still present, unchanged and in
place, because the file is opened in append mode and never truncated —
the call only appends the rows that succeeded before the failure. -/
theorem c9_prior_rows_preserved (file : Option (List (List String)))
    (rows : List (List String)) (xs : List Json) (rx : List (List String))
    (bad : Json) (rest : List Json) (e : String)
    (hx : mapRows xs = Except.ok rx) (hbad : mkRow bad = Except.error e) :
    json_to_csv none file = file ∧
    json_to_csv (some (Json.arr (xs ++ bad :: rest))) (some rows) = some (rows ++ rx) := by
  constructor
  · rfl
  · have h1 := writeRows_ok xs rx hx (bad :: rest) rows
    have h2 := writeRows_stops bad e hbad rest (rows ++ rx)
    simp [json_to_csv, pyIter, h1, h2]

/-- Witness for C9: with one prior row in the file, a batch whose second
element is a non-dict aborts after appending the first row; the prior
row is untouched, and a parse failure leaves the file as it was. -/
theorem c9_prior_rows_preserved_witness :
    json_to_csv none (some [header, ["Old", "", "", "", ""]]) =
      some [header, ["Old", "", "", "", ""]] ∧
    json_to_csv
        (some (Json.arr [Json.obj [("name", Json.str "Bob")], Json.num 5, Json.obj []]))
        (some [header, ["Old", "", "", "", ""]]) =
      some [header, ["Old", "", "", "", ""], ["Bob", "", "", "", ""]] :=
  c9_prior_rows_preserved (some [header, ["Old", "", "", "", ""]])
    [header, ["Old", "", "", "", ""]]
    [Json.obj [("name", Json.str "Bob")]] [["Bob", "", "", "", ""]]
    (Json.num 5) [Json.obj []] "AttributeError: get on non-dict" rfl rfl

/-- Claim C10: an aggregation call is not atomic with respect to its
own rows: when the destination was fresh and constructing the row for
an element fails, the header and the rows for the elements before it,
written in that same call, remain in the destination — a failed call
leaves a partial batch appended. -/
theorem c10_partial_batch (xs : List Json) (rx : List (List String)) (bad : Json)
    (rest : List Json) (e : String)
    (hx : mapRows xs = Except.ok rx) (hbad : mkRow bad = Except.error e) :
    json_to_csv (some (Json.arr (xs ++ bad :: rest))) none = some ([header] ++ rx) := by
  have h1 := writeRows_ok xs rx hx (bad :: rest) [header]
  have h2 := writeRows_stops bad e hbad rest (header :: rx)
  simp [json_to_csv, pyIter, h1, h2]

/-- Witness for C10: on a fresh destination, a batch whose second
element is a non-dict leaves the header and the first row in the file —
a partial batch. -/
theorem c10_partial_batch_witness :
    json_to_csv
        (some (Json.arr [Json.obj [("name", Json.str "Eve")], Json.bool true, Json.obj []]))
        none =
      some [header, ["Eve", "", "", "", ""]] :=
  c10_partial_batch [Json.obj [("name", Json.str "Eve")]] [["Eve", "", "", "", ""]]
    (Json.bool true) [Json.obj []] "AttributeError: get on non-dict" rfl rfl
